import Mathlib

/-!
Verification of the lldb synthetic-child providers in `src/lldb/`
(`slice.py`, `vec.py`, `hashmap.py`).

The providers are written against the debugger's value-inspection API
(`SBValue` / `SBType`).  We embed that API shallowly: a value is a tree
of named, typed nodes; values materialised from a raw address carry the
address and type, and scalar reads go through an explicit byte-memory
function `mem : Int → Nat` (the result of reading the unsigned byte at an
address).  Addresses are `Int` because the Python arithmetic that produces
them (`pairs_start + idx * pair_type_size` with `idx` possibly negative)
is exact arbitrary-precision integer arithmetic.

API behaviours modelled from lldb's documented semantics: a missing child
is an invalid value; `GetValueAsUnsigned` on an invalid or aggregate value
returns the fail value 0; `CreateValueFromAddress` materialises a typed
value at an address; `CreateValueFromData` materialises one backed by a
byte region.  Strings are modelled over characters where Python's
`str.isdigit` agrees with ASCII digits, the alphabet the host's
path-expression names are drawn from.
-/

/-- Shallow embedding of `SBType`: pointers, typedefs, structure types with
template arguments and (name, byte-offset, type) fields, and basic scalar
types. -/
inductive SBType where
  | pointer (pointee : SBType)
  | typedefT (name : String) (underlying : SBType)
  | structT (name : String) (size : Nat) (template_args : List SBType)
      (fields : List (String × Nat × SBType))
  | basic (name : String) (size : Nat)

/-- Byte size of a type; pointers are 8 bytes (64-bit target). -/
def SBType.GetByteSize : SBType → Nat
  | .pointer _ => 8
  | .typedefT _ u => u.GetByteSize
  | .structT _ s _ _ => s
  | .basic _ s => s

/-- Whether the type is a typedef (`SBType.IsTypedefType`). -/
def SBType.IsTypedefType : SBType → Bool
  | .typedefT _ _ => true
  | _ => false

/-- Resolve one typedef level (`SBType.GetTypedefedType`); identity on
non-typedefs. -/
def SBType.GetTypedefedType : SBType → SBType
  | .typedefT _ u => u
  | t => t

/-- Strip all typedef layers. -/
def SBType.resolveTypedefs : SBType → SBType
  | .typedefT _ u => u.resolveTypedefs
  | t => t

/-- Pointee type of a pointer type (`SBType.GetPointeeType`). -/
def SBType.GetPointeeType : SBType → SBType
  | .pointer p => p
  | _ => .basic "" 0

/-- Pointer-to-this type (`SBType.GetPointerType`). -/
def SBType.GetPointerType (t : SBType) : SBType := .pointer t

/-- Template arguments of a type (`type.template_args` in the Python API);
empty for non-generic types. -/
def SBType.templateArgList : SBType → List SBType
  | .structT _ _ ta _ => ta
  | _ => []

/-- The `i`-th template argument (`SBType.GetTemplateArgumentType`). -/
def SBType.GetTemplateArgumentType (t : SBType) (i : Nat) : SBType :=
  (t.templateArgList.get? i).getD (.basic "" 0)

/-- Fields of a type, seen through typedefs. -/
def SBType.fieldList : SBType → List (String × Nat × SBType)
  | .typedefT _ u => u.fieldList
  | .structT _ _ _ fs => fs
  | _ => []

/-- Shallow embedding of `SBValue`.  `invalid` is the invalid value lldb
hands back for a missing child; `scalar` and `agg` are host-provided tree
nodes; `fromAddress` is a value materialised by `CreateValueFromAddress`;
`fromData` is a value materialised by `CreateValueFromData` from a byte
region `[dataAddr, dataAddr + dataSize)`. -/
inductive SBValue where
  | invalid
  | scalar (name : String) (ty : SBType) (value : Nat)
  | agg (name : String) (ty : SBType) (children : List SBValue)
  | fromAddress (name : String) (addr : Int) (ty : SBType)
  | fromData (name : String) (dataAddr : Int) (dataSize : Nat) (ty : SBType)

/-- Display name of a value (`SBValue.GetName`). -/
def SBValue.name : SBValue → String
  | .invalid => ""
  | .scalar n _ _ => n
  | .agg n _ _ => n
  | .fromAddress n _ _ => n
  | .fromData n _ _ _ => n

/-- Declared type of a value (`SBValue.GetType`). -/
def SBValue.GetType : SBValue → SBType
  | .invalid => .basic "" 0
  | .scalar _ t _ => t
  | .agg _ t _ => t
  | .fromAddress _ _ t => t
  | .fromData _ _ _ t => t

/-- Validity flag (`SBValue.IsValid`). -/
def SBValue.IsValid : SBValue → Bool
  | .invalid => false
  | _ => true

/-- Whether the value's type is a pointer type (`SBValue.TypeIsPointerType`). -/
def SBValue.TypeIsPointerType (v : SBValue) : Bool :=
  match v.GetType with
  | .pointer _ => true
  | _ => false

/-- Little-endian unsigned read of `n` bytes at address `a` from the byte
memory `mem`. -/
def readUnsignedLE (mem : Int → Nat) (a : Int) : Nat → Nat
  | 0 => 0
  | n + 1 => mem a % 256 + 256 * readUnsignedLE mem (a + 1) n

/-- Unsigned scalar value (`SBValue.GetValueAsUnsigned`): the stored value
for a host scalar node, a memory read for an address-backed or data-backed
scalar, and lldb's fail value 0 for invalid or aggregate values. -/
def SBValue.GetValueAsUnsigned (mem : Int → Nat) : SBValue → Nat
  | .invalid => 0
  | .scalar _ _ v => v
  | .agg _ _ _ => 0
  | .fromAddress _ a ty =>
      match ty.resolveTypedefs with
      | .structT _ _ _ _ => 0
      | t => readUnsignedLE mem a t.GetByteSize
  | .fromData _ a _ ty =>
      match ty.resolveTypedefs with
      | .structT _ _ _ _ => 0
      | t => readUnsignedLE mem a t.GetByteSize

/-- Child lookup by name (`SBValue.GetChildMemberWithName`): direct child of
a tree node, or a materialised field of an address-backed value; the invalid
value when absent. -/
def SBValue.GetChildMemberWithName (v : SBValue) (n : String) : SBValue :=
  match v with
  | .agg _ _ children => (children.find? (fun c => c.name == n)).getD .invalid
  | .fromAddress _ a ty =>
      match ty.fieldList.find? (fun f => f.1 == n) with
      | some (fn, off, fty) => .fromAddress fn (a + off) fty
      | none => .invalid
  | .fromData _ a _ ty =>
      match ty.fieldList.find? (fun f => f.1 == n) with
      | some (fn, off, fty) => .fromData fn (a + off) fty.GetByteSize fty
      | none => .invalid
  | _ => .invalid

/-- Child lookup by position (`SBValue.GetChildAtIndex`). -/
def SBValue.GetChildAtIndex (v : SBValue) (i : Nat) : SBValue :=
  match v with
  | .agg _ _ children => (children.get? i).getD .invalid
  | .fromAddress _ a ty =>
      match ty.fieldList.get? i with
      | some (fn, off, fty) => .fromAddress fn (a + off) fty
      | none => .invalid
  | .fromData _ a _ ty =>
      match ty.fieldList.get? i with
      | some (fn, off, fty) => .fromData fn (a + off) fty.GetByteSize fty
      | none => .invalid
  | _ => .invalid

/-- Reinterpret a value at a different type (`SBValue.Cast`). -/
def SBValue.Cast (v : SBValue) (t : SBType) : SBValue :=
  match v with
  | .invalid => .invalid
  | .scalar n _ val => .scalar n t val
  | .agg n _ ch => .agg n t ch
  | .fromAddress n a _ => .fromAddress n a t
  | .fromData n a s _ => .fromData n a s t

/-- Materialise a typed value at an absolute address
(`SBValue.CreateValueFromAddress`). -/
def SBValue.CreateValueFromAddress (n : String) (a : Int) (t : SBType) : SBValue :=
  .fromAddress n a t

/-- Byte region backing a value (`SBValue.GetData`): address and size.  Only
address-backed and data-backed values are ever asked for their data by the
providers. -/
def SBValue.GetData : SBValue → Int × Nat
  | .fromAddress _ a ty => (a, ty.GetByteSize)
  | .fromData _ a s _ => (a, s)
  | _ => (0, 0)

/-- Materialise a typed value from a byte region
(`SBValue.CreateValueFromData`). -/
def SBValue.CreateValueFromData (n : String) (d : Int × Nat) (t : SBType) : SBValue :=
  .fromData n d.1 d.2 t

/-- Load address of an address-backed value; 0 for other values. -/
def SBValue.loadAddress : SBValue → Int
  | .fromAddress _ a _ => a
  | _ => 0

/-- The unsigned 8-bit basic type
(`valobj.GetTarget().GetBasicType(eBasicTypeUnsignedChar)`). -/
def u8Type : SBType := .basic "unsigned char" 1

/-! ### Python string helpers

`name.lstrip('[')`, `name.rstrip(']')`, `str.isdigit` and `int(...)` as the
providers use them in `get_child_index`, and the decimal rendering behind
`"[%s]" % index`. -/

/-- Python `s.lstrip(c)`: drop every leading occurrence of `c`. -/
def pyLstrip (c : Char) (l : List Char) : List Char :=
  l.dropWhile (fun x => x == c)

/-- Python `s.rstrip(c)`: drop every trailing occurrence of `c`. -/
def pyRstrip (c : Char) (l : List Char) : List Char :=
  (l.reverse.dropWhile (fun x => x == c)).reverse

/-- Python `s.isdigit()` over the ASCII alphabet: nonempty and all digits. -/
def pyIsdigit (l : List Char) : Bool :=
  !l.isEmpty && l.all (fun c => c.isDigit)

/-- Python `int(s)` on a digit string: decimal value. -/
def pyIntOfDigits (l : List Char) : Nat :=
  l.foldl (fun acc c => acc * 10 + (c.toNat - 48)) 0

/-- The ASCII digit character for `n < 10`. -/
def digitChar (n : Nat) : Char := Char.ofNat (48 + n)

/-- Decimal digit list of `n`, most significant first, computed with
explicit fuel so that it reduces structurally (`fuel > n` suffices). -/
def natDigitsCore (fuel n : Nat) : List Char :=
  match fuel with
  | 0 => []
  | fuel + 1 =>
      if n < 10 then [digitChar n]
      else natDigitsCore fuel (n / 10) ++ [digitChar (n % 10)]

/-- Decimal digit list of `n` (Python `str(n)` for a non-negative `n`). -/
def natRepr (n : Nat) : List Char := natDigitsCore (n + 1) n

/-- The child name `"[%s]" % index` every provider gives child `index`. -/
def childName (i : Nat) : String := String.mk ('[' :: natRepr i ++ [']'])

/-- Shared body of the three providers' `get_child_index`:
strip leading `'['` and trailing `']'`, parse a digit string, else `-1`. -/
def pyGetChildIndex (name : String) : Int :=
  let index := pyRstrip (']') (pyLstrip ('[') name.data)
  if pyIsdigit index then ((pyIntOfDigits index : Nat) : Int) else -1

/-! ### `slice.py`: `StdSliceSyntheticProvider` -/

/-- Geometry computed by `StdSliceSyntheticProvider.update`. -/
structure StdSliceSyntheticProvider where
  valobj : SBValue
  length : Nat
  data_ptr : SBValue
  element_type : SBType
  element_type_size : Nat

/-- `StdSliceSyntheticProvider.update`: read `length` and `data_ptr`, and
take the element type from the pointer's pointee type. -/
def StdSliceSyntheticProvider.update (mem : Int → Nat) (valobj : SBValue) :
    StdSliceSyntheticProvider :=
  let length := (valobj.GetChildMemberWithName "length").GetValueAsUnsigned mem
  let data_ptr := valobj.GetChildMemberWithName "data_ptr"
  let element_type := data_ptr.GetType.GetPointeeType
  { valobj := valobj, length := length, data_ptr := data_ptr,
    element_type := element_type,
    element_type_size := element_type.GetByteSize }

/-- `StdSliceSyntheticProvider.num_children`. -/
def StdSliceSyntheticProvider.num_children (p : StdSliceSyntheticProvider) : Nat :=
  p.length

/-- `StdSliceSyntheticProvider.get_child_index`. -/
def StdSliceSyntheticProvider.get_child_index (name : String) : Int :=
  pyGetChildIndex name

/-- `StdSliceSyntheticProvider.get_child_at_index`: no range check is made;
the element address is always `start + index * element_type_size`. -/
def StdSliceSyntheticProvider.get_child_at_index (mem : Int → Nat)
    (p : StdSliceSyntheticProvider) (index : Nat) : SBValue :=
  let start := p.data_ptr.GetValueAsUnsigned mem
  let address : Int := (start : Int) + (index : Int) * (p.element_type_size : Int)
  SBValue.CreateValueFromAddress (childName index) address p.element_type

/-! ### `vec.py`: `StdVecSyntheticProvider` and `unwrap_unique_or_non_null` -/

/-- `unwrap_unique_or_non_null`: read the `pointer` member; if it already has
pointer type return it, otherwise descend one level to its first child. -/
def unwrap_unique_or_non_null (unique_or_nonnull : SBValue) : SBValue :=
  let ptr := unique_or_nonnull.GetChildMemberWithName "pointer"
  if ptr.TypeIsPointerType then ptr else ptr.GetChildAtIndex 0

/-- Geometry computed by `StdVecSyntheticProvider.update`. -/
structure StdVecSyntheticProvider where
  valobj : SBValue
  length : Nat
  buf : SBValue
  data_ptr : SBValue
  element_type : SBType
  element_type_size : Nat

/-- `StdVecSyntheticProvider.update`: read `len`, descend into `buf.inner`,
unwrap the `ptr` field, and take the element type from the vector's first
template argument. -/
def StdVecSyntheticProvider.update (mem : Int → Nat) (valobj : SBValue) :
    StdVecSyntheticProvider :=
  let length := (valobj.GetChildMemberWithName "len").GetValueAsUnsigned mem
  let buf := (valobj.GetChildMemberWithName "buf").GetChildMemberWithName "inner"
  let data_ptr := unwrap_unique_or_non_null (buf.GetChildMemberWithName "ptr")
  let element_type := valobj.GetType.GetTemplateArgumentType 0
  { valobj := valobj, length := length, buf := buf, data_ptr := data_ptr,
    element_type := element_type,
    element_type_size := element_type.GetByteSize }

/-- `StdVecSyntheticProvider.num_children`. -/
def StdVecSyntheticProvider.num_children (p : StdVecSyntheticProvider) : Nat :=
  p.length

/-- `StdVecSyntheticProvider.get_child_index`. -/
def StdVecSyntheticProvider.get_child_index (name : String) : Int :=
  pyGetChildIndex name

/-- `StdVecSyntheticProvider.get_child_at_index`: no range check is made;
the element address is always `start + index * element_type_size`. -/
def StdVecSyntheticProvider.get_child_at_index (mem : Int → Nat)
    (p : StdVecSyntheticProvider) (index : Nat) : SBValue :=
  let start := p.data_ptr.GetValueAsUnsigned mem
  let address : Int := (start : Int) + (index : Int) * (p.element_type_size : Int)
  SBValue.CreateValueFromAddress (childName index) address p.element_type

/-! ### `hashmap.py`: `StdHashMapSyntheticProvider` and the set variant

The Python object keeps `capacity` and `ctrl` as locals of `update`; the
embedded state records them so theorems can refer to the scanned capacity
and control-byte base without recomputing them. -/

/-- State computed by `StdHashMapSyntheticProvider.update`. -/
structure StdHashMapSyntheticProvider where
  valobj : SBValue
  show_values : Bool
  size : Nat
  capacity : Nat
  ctrl : SBValue
  pair_type : SBType
  pair_type_size : Nat
  new_layout : Bool
  data_ptr : SBValue
  valid_indices : List Nat

/-- `StdHashMapSyntheticProvider.table`: `valobj.base.table`. -/
def StdHashMapSyntheticProvider.table (valobj : SBValue) : SBValue :=
  (valobj.GetChildMemberWithName "base").GetChildMemberWithName "table"

/-- `StdHashSetSyntheticProvider.table`: `valobj.base.map.table` — the set
variant differs from the map only in this one extra indirection. -/
def StdHashSetSyntheticProvider.table (valobj : SBValue) : SBValue :=
  ((valobj.GetChildMemberWithName "base").GetChildMemberWithName
    "map").GetChildMemberWithName "table"

/-- `StdHashMapSyntheticProvider.update`, parameterised by the `table()`
method the subclass supplies.  Returns `none` where the Python code raises:
`table.type.template_args[0]` fails when the table type has no template
arguments.  A missing `bucket_mask`, `items`, `ctrl` or `data` member is an
invalid value, whose unsigned read is lldb's fail value 0. -/
def StdHashMapSyntheticProvider.updateWith (mem : Int → Nat)
    (tableOf : SBValue → SBValue) (show_values : Bool) (valobj : SBValue) :
    Option StdHashMapSyntheticProvider :=
  let table := tableOf valobj
  let inner_table := table.GetChildMemberWithName "table"
  let capacity :=
    (inner_table.GetChildMemberWithName "bucket_mask").GetValueAsUnsigned mem + 1
  let ctrl := (inner_table.GetChildMemberWithName "ctrl").GetChildAtIndex 0
  let size := (inner_table.GetChildMemberWithName "items").GetValueAsUnsigned mem
  match table.GetType.templateArgList.get? 0 with
  | none => none
  | some ta =>
      let pair_type := if ta.IsTypedefType then ta.GetTypedefedType else ta
      let pair_type_size := pair_type.GetByteSize
      let new_layout := !(inner_table.GetChildMemberWithName "data").IsValid
      let data_ptr :=
        if new_layout then ctrl.Cast pair_type.GetPointerType
        else (inner_table.GetChildMemberWithName "data").GetChildAtIndex 0
      let u8_type_size := u8Type.GetByteSize
      let valid_indices := (List.range capacity).filter fun idx =>
        let address : Nat := ctrl.GetValueAsUnsigned mem + idx * u8_type_size
        let value := (SBValue.CreateValueFromAddress
          (String.mk (('c' :: 't' :: 'r' :: 'l' :: '[' :: natRepr idx) ++ [']']))
          (address : Int) u8Type).GetValueAsUnsigned mem
        value &&& 128 == 0
      some { valobj := valobj, show_values := show_values, size := size,
             capacity := capacity, ctrl := ctrl, pair_type := pair_type,
             pair_type_size := pair_type_size, new_layout := new_layout,
             data_ptr := data_ptr, valid_indices := valid_indices }

/-- `StdHashMapSyntheticProvider.update` (map variant: `show_values=True`). -/
def StdHashMapSyntheticProvider.update (mem : Int → Nat) (valobj : SBValue) :
    Option StdHashMapSyntheticProvider :=
  StdHashMapSyntheticProvider.updateWith mem StdHashMapSyntheticProvider.table
    true valobj

/-- `StdHashSetSyntheticProvider.update` (set variant: `show_values=False`,
one extra indirection to reach the table). -/
def StdHashSetSyntheticProvider.update (mem : Int → Nat) (valobj : SBValue) :
    Option StdHashMapSyntheticProvider :=
  StdHashMapSyntheticProvider.updateWith mem StdHashSetSyntheticProvider.table
    false valobj

/-- `StdHashMapSyntheticProvider.num_children`: the `items` header value. -/
def StdHashMapSyntheticProvider.num_children (p : StdHashMapSyntheticProvider) :
    Nat :=
  p.size

/-- `StdHashMapSyntheticProvider.get_child_index`. -/
def StdHashMapSyntheticProvider.get_child_index (name : String) : Int :=
  pyGetChildIndex name

/-- `StdHashMapSyntheticProvider.get_child_at_index`.  `none` models the
`IndexError` Python raises when `self.valid_indices[index]` is accessed out
of range (indices the host passes are non-negative).  For the set variant
(`show_values = false`) the raw pair is re-projected to its first child. -/
def StdHashMapSyntheticProvider.get_child_at_index (mem : Int → Nat)
    (p : StdHashMapSyntheticProvider) (index : Nat) : Option SBValue :=
  let pairs_start := p.data_ptr.GetValueAsUnsigned mem
  match p.valid_indices.get? index with
  | none => none
  | some i =>
      let idx : Int := if p.new_layout then -((i : Int) + 1) else (i : Int)
      let address : Int := (pairs_start : Int) + idx * (p.pair_type_size : Int)
      let element := SBValue.CreateValueFromAddress (childName index) address
        p.pair_type
      if p.show_values then some element
      else
        let key := element.GetChildAtIndex 0
        some (SBValue.CreateValueFromData (childName index) key.GetData
          key.GetType)

/-! ### Concrete debuggee snapshots used by witnesses and counterexamples -/

/-- 8-byte unsigned integer type. -/
def u64Type : SBType := .basic "unsigned long" 8

/-- 4-byte unsigned integer type. -/
def u32Type : SBType := .basic "unsigned int" 4

/-- Key/value pair type of the demo map: two 8-byte fields, 16 bytes. -/
def demoPairTy : SBType :=
  .structT "(unsigned long, unsigned long)" 16 []
    [("0", 0, u64Type), ("1", 8, u64Type)]

/-- Demo byte memory: control bytes `[0, 0x80, 0, 0x80, 0x80, 0x80, 0,
0x80]` at `0x2000`, one present control byte at `0x3000`, `0x80`
everywhere else. -/
def demoMem : Int → Nat := fun a =>
  if a = 0x2000 then 0 else if a = 0x2001 then 128 else
  if a = 0x2002 then 0 else if a = 0x2003 then 128 else
  if a = 0x2004 then 128 else if a = 0x2005 then 128 else
  if a = 0x2006 then 0 else if a = 0x2007 then 128 else
  if a = 0x3000 then 0 else 128

/-- Demo inner table (NEW layout: no `data` member): `bucket_mask = 7`,
`ctrl` wrapping a pointer to `0x2000`, `items = 3`. -/
def demoInnerTable : SBValue :=
  .agg "table" (.structT "RawTableInner" 40 [] [])
    [ .scalar "bucket_mask" u64Type 7,
      .agg "ctrl" (.structT "NonNull<u8>" 8 [] [])
        [.scalar "pointer" (.pointer u8Type) 0x2000],
      .scalar "items" u64Type 3 ]

/-- Demo map value: `base.table` is the `RawTable` (first template argument
the pair type) whose `table` member is the inner table. -/
def demoMapValobj : SBValue :=
  .agg "m" (.structT "HashMap" 48 [] [])
    [ .agg "base" (.structT "hashbrown::HashMap" 48 [] [])
        [ .agg "table" (.structT "RawTable" 40 [demoPairTy] [])
            [demoInnerTable] ] ]

/-- The state `update` computes on `demoMapValobj` under `demoMem`. -/
def demoMapState : StdHashMapSyntheticProvider :=
  { valobj := demoMapValobj, show_values := true, size := 3, capacity := 8,
    ctrl := .scalar "pointer" (.pointer u8Type) 0x2000,
    pair_type := demoPairTy, pair_type_size := 16, new_layout := true,
    data_ptr := .scalar "pointer" (.pointer demoPairTy) 0x2000,
    valid_indices := [0, 2, 6] }

/-- Demo map value in the OLD layout: same geometry but with a `data`
member wrapping a pointer to `0x8000`. -/
def demoOldMapValobj : SBValue :=
  .agg "m" (.structT "HashMap" 48 [] [])
    [ .agg "base" (.structT "hashbrown::HashMap" 48 [] [])
        [ .agg "table" (.structT "RawTable" 48 [demoPairTy] [])
            [ .agg "table" (.structT "RawTableInner" 48 [] [])
                [ .scalar "bucket_mask" u64Type 7,
                  .agg "ctrl" (.structT "NonNull<u8>" 8 [] [])
                    [.scalar "pointer" (.pointer u8Type) 0x2000],
                  .scalar "items" u64Type 3,
                  .agg "data" (.structT "NonNull<pair>" 8 [] [])
                    [.scalar "pointer" (.pointer demoPairTy) 0x8000] ] ] ] ]

/-- The state `update` computes on `demoOldMapValobj` under `demoMem`. -/
def demoOldMapState : StdHashMapSyntheticProvider :=
  { valobj := demoOldMapValobj, show_values := true, size := 3, capacity := 8,
    ctrl := .scalar "pointer" (.pointer u8Type) 0x2000,
    pair_type := demoPairTy, pair_type_size := 16, new_layout := false,
    data_ptr := .scalar "pointer" (.pointer demoPairTy) 0x8000,
    valid_indices := [0, 2, 6] }




/-- Demo slice value: `length = 3`, `data_ptr` a pointer to `u32` at
`0x1000`. -/
def demoSliceValobj : SBValue :=
  .agg "s" (.structT "&[u32]" 16 [] [])
    [ .scalar "data_ptr" (.pointer u32Type) 0x1000,
      .scalar "length" u64Type 3 ]

/-- The state the slice provider computes on `demoSliceValobj`. -/
def demoSliceState : StdSliceSyntheticProvider :=
  StdSliceSyntheticProvider.update demoMem demoSliceValobj

/-- Demo vec value: `len = 3`, `buf.inner.ptr` a `Unique` wrapping a
`NonNull` wrapping a pointer to `u32` at `0x1000`. -/
def demoVecValobj : SBValue :=
  .agg "v" (.structT "Vec" 24 [u32Type] [])
    [ .agg "buf" (.structT "RawVec" 16 [] [])
        [ .agg "inner" (.structT "RawVecInner" 16 [] [])
            [ .agg "ptr" (.structT "Unique<u32>" 8 [] [])
                [ .agg "pointer" (.structT "NonNull<u32>" 8 [] [])
                    [.scalar "pointer" (.pointer u32Type) 0x1000] ] ] ],
      .scalar "len" u64Type 3 ]

/-- The state the vec provider computes on `demoVecValobj`. -/
def demoVecState : StdVecSyntheticProvider :=
  StdVecSyntheticProvider.update demoMem demoVecValobj

/-- Demo map whose header `items` (2) disagrees with the scanned occupied
count (1): `bucket_mask = 0` gives capacity 1, and the single control byte
at `0x3000` is occupied. -/
def demoMismatchValobj : SBValue :=
  .agg "m" (.structT "HashMap" 48 [] [])
    [ .agg "base" (.structT "hashbrown::HashMap" 48 [] [])
        [ .agg "table" (.structT "RawTable" 40 [demoPairTy] [])
            [ .agg "table" (.structT "RawTableInner" 40 [] [])
                [ .scalar "bucket_mask" u64Type 0,
                  .agg "ctrl" (.structT "NonNull<u8>" 8 [] [])
                    [.scalar "pointer" (.pointer u8Type) 0x3000],
                  .scalar "items" u64Type 2 ] ] ] ]

/-- The state `update` computes on `demoMismatchValobj` under `demoMem`. -/
def demoMismatchState : StdHashMapSyntheticProvider :=
  { valobj := demoMismatchValobj, show_values := true, size := 2,
    capacity := 1,
    ctrl := .scalar "pointer" (.pointer u8Type) 0x3000,
    pair_type := demoPairTy, pair_type_size := 16, new_layout := true,
    data_ptr := .scalar "pointer" (.pointer demoPairTy) 0x3000,
    valid_indices := [0] }


/-- Demo map whose inner table lacks a `bucket_mask` member (`items = 5`,
`ctrl` points at `0x4000`, whose byte is `0x80`). -/
def demoNoMaskValobj : SBValue :=
  .agg "m" (.structT "HashMap" 48 [] [])
    [ .agg "base" (.structT "hashbrown::HashMap" 48 [] [])
        [ .agg "table" (.structT "RawTable" 40 [demoPairTy] [])
            [ .agg "table" (.structT "RawTableInner" 40 [] [])
                [ .agg "ctrl" (.structT "NonNull<u8>" 8 [] [])
                    [.scalar "pointer" (.pointer u8Type) 0x4000],
                  .scalar "items" u64Type 5 ] ] ] ]

/-- The state `update` computes on `demoNoMaskValobj` under `demoMem`:
the missing `bucket_mask` reads as 0, so capacity is 1. -/
def demoNoMaskState : StdHashMapSyntheticProvider :=
  { valobj := demoNoMaskValobj, show_values := true, size := 5,
    capacity := 1,
    ctrl := .scalar "pointer" (.pointer u8Type) 0x4000,
    pair_type := demoPairTy, pair_type_size := 16, new_layout := true,
    data_ptr := .scalar "pointer" (.pointer demoPairTy) 0x4000,
    valid_indices := [] }


/-- Pair type of the demo set: an 8-byte key and a zero-sized unit value. -/
def demoSetPairTy : SBType :=
  .structT "(unsigned long, ())" 8 []
    [("0", 0, u64Type), ("1", 8, .basic "()" 0)]

/-- Demo set value: one extra `map` indirection, then the same table shape
as `demoMapValobj` but with the set pair type (size 8). -/
def demoSetValobj : SBValue :=
  .agg "s" (.structT "HashSet" 48 [] [])
    [ .agg "base" (.structT "hashbrown::HashSet" 48 [] [])
        [ .agg "map" (.structT "hashbrown::HashMap" 48 [] [])
            [ .agg "table" (.structT "RawTable" 40 [demoSetPairTy] [])
                [demoInnerTable] ] ] ]

/-- The state the set variant's `update` computes on `demoSetValobj`. -/
def demoSetState : StdHashMapSyntheticProvider :=
  { valobj := demoSetValobj, show_values := false, size := 3, capacity := 8,
    ctrl := .scalar "pointer" (.pointer u8Type) 0x2000,
    pair_type := demoSetPairTy, pair_type_size := 8, new_layout := true,
    data_ptr := .scalar "pointer" (.pointer demoSetPairTy) 0x2000,
    valid_indices := [0, 2, 6] }






/-- The unsigned byte the control scan reads for slot `i` from control base
address `base`: one unsigned-char read at `base + i`. -/
def ctrlByte (mem : Int → Nat) (base i : Nat) : Nat :=
  readUnsignedLE mem ((base + i : Nat) : Int) 1

/-- The 1.33-era shape: `Unique` whose `pointer` member is itself a raw
pointer to `T` holding address `A`. -/
def uniqueRawPtr (A : Nat) (T : SBType) : SBValue :=
  .agg "ptr" (.structT "Unique" 8 [] [])
    [.scalar "pointer" (.pointer T) A]

/-- The 1.62-era shape: `Unique` whose `pointer` member is a one-field
`NonNull` wrapper whose own `pointer` member is the raw pointer. -/
def uniqueNonNull (A : Nat) (T : SBType) : SBValue :=
  .agg "ptr" (.structT "Unique" 8 [] [])
    [.agg "pointer" (.structT "NonNull" 8 [] [])
      [.scalar "pointer" (.pointer T) A]]

/-- The 1.31-era shape: `Unique` wrapping a non-zero-integer `NonZero`
tuple wrapper (single field `0`) around the raw pointer. -/
def uniqueNonZero (A : Nat) (T : SBType) : SBValue :=
  .agg "ptr" (.structT "Unique" 8 [] [])
    [.agg "pointer" (.structT "NonZero" 8 [] [])
      [.scalar "0" (.pointer T) A]]

/-- A map value whose inner table lacks a `bucket_mask` member: `items`
holds `n` and the control pointer holds `c`. -/
def noMaskValobj (n c : Nat) : SBValue :=
  .agg "m" (.structT "HashMap" 48 [] [])
    [ .agg "base" (.structT "hashbrown::HashMap" 48 [] [])
        [ .agg "table" (.structT "RawTable" 40 [demoPairTy] [])
            [ .agg "table" (.structT "RawTableInner" 40 [] [])
                [ .agg "ctrl" (.structT "NonNull<u8>" 8 [] [])
                    [.scalar "pointer" (.pointer u8Type) c],
                  .scalar "items" u64Type n ] ] ] ]

/-! ### Helper lemmas about the Python string functions -/

lemma digitChar_isDigit (n : Nat) (h : n < 10) : (digitChar n).isDigit = true := by
  interval_cases n <;> decide

lemma digitChar_toNat (n : Nat) (h : n < 10) : (digitChar n).toNat = 48 + n := by
  interval_cases n <;> decide

lemma pyIntOfDigits_append (l : List Char) (c : Char) :
    pyIntOfDigits (l ++ [c]) = pyIntOfDigits l * 10 + (c.toNat - 48) := by
  simp [pyIntOfDigits, List.foldl_append]

lemma natDigitsCore_spec (fuel : Nat) : ∀ n, n < fuel →
    natDigitsCore fuel n ≠ [] ∧ (∀ c ∈ natDigitsCore fuel n, c.isDigit = true) ∧
    pyIntOfDigits (natDigitsCore fuel n) = n := by
  induction fuel with
  | zero => intro n h; exact absurd h (Nat.not_lt_zero n)
  | succ fuel ih =>
    intro n hn
    by_cases h10 : n < 10
    · refine ⟨by simp [natDigitsCore, h10], ?_, ?_⟩
      · intro c hc
        simp [natDigitsCore, h10] at hc
        subst hc
        exact digitChar_isDigit n h10
      · simp [natDigitsCore, h10, pyIntOfDigits, digitChar_toNat n h10]
    · have hdivlt : n / 10 < n := Nat.div_lt_self (by omega) (by omega)
      have hdiv : n / 10 < fuel := by omega
      obtain ⟨hne, hall, hval⟩ := ih (n / 10) hdiv
      have hmod : n % 10 < 10 := Nat.mod_lt _ (by omega)
      refine ⟨by simp [natDigitsCore, h10], ?_, ?_⟩
      · intro c hc
        simp only [natDigitsCore, h10, if_false, List.mem_append,
          List.mem_singleton] at hc
        rcases hc with hc | hc
        · exact hall c hc
        · subst hc; exact digitChar_isDigit _ hmod
      · simp only [natDigitsCore, h10, if_false, pyIntOfDigits_append, hval,
          digitChar_toNat _ hmod]
        omega

lemma natRepr_ne_nil (n : Nat) : natRepr n ≠ [] :=
  (natDigitsCore_spec (n + 1) n (Nat.lt_succ_self n)).1

lemma natRepr_all_digits (n : Nat) : ∀ c ∈ natRepr n, c.isDigit = true :=
  (natDigitsCore_spec (n + 1) n (Nat.lt_succ_self n)).2.1

lemma pyIntOfDigits_natRepr (n : Nat) : pyIntOfDigits (natRepr n) = n :=
  (natDigitsCore_spec (n + 1) n (Nat.lt_succ_self n)).2.2

lemma isDigit_ne_of_digit (c d : Char) (hd : d.isDigit = false)
    (h : c.isDigit = true) : (c == d) = false := by
  cases hq : c == d
  · rfl
  · exfalso
    have hc : c = d := eq_of_beq hq
    subst hc
    rw [h] at hd
    simp at hd

lemma dropWhile_all_false (p : Char → Bool) (l : List Char)
    (h : ∀ x ∈ l, p x = false) : l.dropWhile p = l := by
  cases l with
  | nil => rfl
  | cons a as => simp [List.dropWhile_cons, h a (List.mem_cons_self a as)]

lemma pyRstrip_snoc (c : Char) (l : List Char) :
    pyRstrip c (l ++ [c]) = pyRstrip c l := by
  unfold pyRstrip
  rw [List.reverse_append]
  simp [List.dropWhile_cons]

lemma pyRstrip_all_ne (c : Char) (l : List Char)
    (h : ∀ x ∈ l, (x == c) = false) : pyRstrip c l = l := by
  unfold pyRstrip
  rw [dropWhile_all_false _ _ (fun x hx => h x (List.mem_reverse.mp hx)),
    List.reverse_reverse]

lemma strip_childName (k : Nat) :
    pyRstrip (']') (pyLstrip ('[') ('[' :: natRepr k ++ [']'])) = natRepr k := by
  have hdig : ∀ x ∈ natRepr k, x.isDigit = true := natRepr_all_digits k
  have h1 : pyLstrip ('[') ('[' :: natRepr k ++ [']']) = natRepr k ++ [']'] := by
    unfold pyLstrip
    rw [List.cons_append]
    simp only [List.dropWhile_cons, beq_self_eq_true, if_true]
    refine dropWhile_all_false _ _ ?_
    intro x hx
    rcases List.mem_append.mp hx with hx | hx
    · exact isDigit_ne_of_digit x '[' (by decide) (hdig x hx)
    · simp at hx
      subst hx
      decide
  rw [h1, pyRstrip_snoc]
  refine pyRstrip_all_ne _ _ ?_
  intro x hx
  exact isDigit_ne_of_digit x ']' (by decide) (hdig x hx)

lemma pyIsdigit_natRepr (k : Nat) : pyIsdigit (natRepr k) = true := by
  unfold pyIsdigit
  rw [Bool.and_eq_true]
  constructor
  · cases hr : natRepr k with
    | nil => exact absurd hr (natRepr_ne_nil k)
    | cons a as => rfl
  · rw [List.all_eq_true]
    exact natRepr_all_digits k

lemma pyGetChildIndex_childName (k : Nat) :
    pyGetChildIndex (childName k) = (k : Int) := by
  unfold pyGetChildIndex childName
  rw [show (String.mk ('[' :: natRepr k ++ [']'])).data =
    '[' :: natRepr k ++ [']'] from rfl]
  rw [strip_childName]
  simp only [pyIsdigit_natRepr, if_pos, pyIntOfDigits_natRepr]

/-! ### Claim C5 -/

/-- Claim C5, counterexample: the bare digit string `"7"` and the
repeated-bracket name `"[[5]]"` do not match `^\[\d+\]$`, yet
`get_child_index` parses them to 7 and 5 instead of returning the
not-found sentinel `-1`: `lstrip('[')`/`rstrip(']')` remove every leading
and trailing bracket, so the remainder is a digit string in both cases. -/
theorem get_child_index_unbracketed_cex :
    StdHashMapSyntheticProvider.get_child_index "7" = 7 ∧
    StdHashMapSyntheticProvider.get_child_index "7" ≠ -1 ∧
    StdVecSyntheticProvider.get_child_index "[[5]]" = 5 ∧
    StdVecSyntheticProvider.get_child_index "[[5]]" ≠ -1 := by
  refine ⟨by rfl, by decide, by rfl, by decide⟩

/-- Claim C5, amended: `get_child_index` (identical in the slice, vec and
hash-table providers) returns the not-found sentinel `-1` exactly for the
strings whose residue after stripping every leading `'['` and every
trailing `']'` fails Python's `isdigit` test (is empty or contains a
non-digit).  Any string whose residue is a nonempty digit string — hence
also bare digit strings and repeated-bracket names — is parsed to its
(non-negative) decimal value instead. -/
theorem get_child_index_sentinel_characterization (name : String) :
    (StdHashMapSyntheticProvider.get_child_index name = -1 ↔
      pyIsdigit (pyRstrip (']') (pyLstrip ('[') name.data)) = false) ∧
    StdVecSyntheticProvider.get_child_index name =
      StdHashMapSyntheticProvider.get_child_index name ∧
    StdSliceSyntheticProvider.get_child_index name =
      StdHashMapSyntheticProvider.get_child_index name ∧
    (pyIsdigit (pyRstrip (']') (pyLstrip ('[') name.data)) = true →
      StdHashMapSyntheticProvider.get_child_index name =
        ((pyIntOfDigits (pyRstrip (']') (pyLstrip ('[') name.data)) : Nat) : Int)) := by
  refine ⟨?_, rfl, rfl, ?_⟩
  · unfold StdHashMapSyntheticProvider.get_child_index pyGetChildIndex
    cases h : pyIsdigit (pyRstrip (']') (pyLstrip ('[') name.data)) with
    | false => simp [h]
    | true =>
        simp only [h, if_pos]
        constructor
        · intro hcontra
          omega
        · intro hcontra
          simp at hcontra
  · intro h
    unfold StdHashMapSyntheticProvider.get_child_index pyGetChildIndex
    simp [h]

/-- Claim C5 (amended), witness: at the concrete name `"7"` the residue is
the digit string `"7"`, so the parse branch applies and the result is 7,
not the sentinel. -/
theorem get_child_index_sentinel_characterization_witness :
    StdHashMapSyntheticProvider.get_child_index "7" =
      ((pyIntOfDigits (pyRstrip (']') (pyLstrip ('[') "7".data)) : Nat) : Int) ∧
    ¬ (StdHashMapSyntheticProvider.get_child_index "7" = -1) :=
  ⟨(get_child_index_sentinel_characterization "7").2.2.2 (by rfl),
    fun hc => by
      have h := ((get_child_index_sentinel_characterization "7").1).mp hc
      exact absurd h (by decide)⟩

/-! ### Claim C6 -/

/-- Claim C6: every provider names child `k` with the string `"[k]"`
(`childName k`), and the name round-trips: the shared `get_child_index`
maps `"[k]"` back to `k` for the slice, vec and hash-table providers. -/
theorem child_name_round_trip (k : Nat) (mem : Int → Nat)
    (ps : StdSliceSyntheticProvider) (pv : StdVecSyntheticProvider)
    (ph : StdHashMapSyntheticProvider) :
    (StdSliceSyntheticProvider.get_child_at_index mem ps k).name = childName k ∧
    (StdVecSyntheticProvider.get_child_at_index mem pv k).name = childName k ∧
    (∀ v, StdHashMapSyntheticProvider.get_child_at_index mem ph k = some v →
      v.name = childName k) ∧
    StdSliceSyntheticProvider.get_child_index (childName k) = (k : Int) ∧
    StdVecSyntheticProvider.get_child_index (childName k) = (k : Int) ∧
    StdHashMapSyntheticProvider.get_child_index (childName k) = (k : Int) := by
  refine ⟨rfl, rfl, ?_, pyGetChildIndex_childName k, pyGetChildIndex_childName k,
    pyGetChildIndex_childName k⟩
  intro v hv
  unfold StdHashMapSyntheticProvider.get_child_at_index at hv
  cases hget : ph.valid_indices.get? k with
  | none => rw [hget] at hv; exact absurd hv (by simp)
  | some i =>
      rw [hget] at hv
      simp only at hv
      by_cases hsv : ph.show_values
      · rw [if_pos hsv] at hv
        cases hv
        rfl
      · rw [if_neg hsv] at hv
        cases hv
        rfl

/-- Claim C6, witness: at `k = 2` on the demo map state, the produced child
is named `"[2]"` and `get_child_index "[2]" = 2`. -/
theorem child_name_round_trip_witness :
    (SBValue.fromAddress (childName 2) 0x1F90 demoPairTy).name = childName 2 ∧
    StdHashMapSyntheticProvider.get_child_index (childName 2) = (2 : Int) := by
  have h := child_name_round_trip 2 demoMem demoSliceState demoVecState
    demoMapState
  exact ⟨h.2.2.1 (SBValue.fromAddress (childName 2) 0x1F90 demoPairTy) (by rfl),
    h.2.2.2.2.2⟩

/-! ### Helper lemmas about the hash-table provider -/

lemma updateWith_inv (mem : Int → Nat) (tableOf : SBValue → SBValue) (sv : Bool)
    (valobj : SBValue) (st : StdHashMapSyntheticProvider)
    (h : StdHashMapSyntheticProvider.updateWith mem tableOf sv valobj = some st) :
    ∃ ta, (tableOf valobj).GetType.templateArgList.get? 0 = some ta ∧
      st.valobj = valobj ∧
      st.show_values = sv ∧
      st.capacity = ((((tableOf valobj).GetChildMemberWithName
        "table").GetChildMemberWithName "bucket_mask").GetValueAsUnsigned mem) + 1 ∧
      st.ctrl = (((tableOf valobj).GetChildMemberWithName
        "table").GetChildMemberWithName "ctrl").GetChildAtIndex 0 ∧
      st.size = (((tableOf valobj).GetChildMemberWithName
        "table").GetChildMemberWithName "items").GetValueAsUnsigned mem ∧
      st.pair_type = (if ta.IsTypedefType then ta.GetTypedefedType else ta) ∧
      st.pair_type_size = st.pair_type.GetByteSize ∧
      st.new_layout = !(((tableOf valobj).GetChildMemberWithName
        "table").GetChildMemberWithName "data").IsValid ∧
      st.data_ptr = (if st.new_layout then st.ctrl.Cast st.pair_type.GetPointerType
        else (((tableOf valobj).GetChildMemberWithName
          "table").GetChildMemberWithName "data").GetChildAtIndex 0) ∧
      st.valid_indices = (List.range st.capacity).filter (fun idx =>
        ctrlByte mem (st.ctrl.GetValueAsUnsigned mem) idx &&& 128 == 0) := by
  simp only [StdHashMapSyntheticProvider.updateWith] at h
  cases hta : (tableOf valobj).GetType.templateArgList.get? 0 with
  | none => rw [hta] at h; exact absurd h (by simp)
  | some ta =>
      rw [hta] at h
      simp only at h
      injection h with h
      subst h
      refine ⟨ta, rfl, rfl, rfl, rfl, rfl, rfl, rfl, rfl, rfl, rfl, ?_⟩
      refine List.filter_congr ?_
      intro i _
      simp only [ctrlByte, SBValue.CreateValueFromAddress,
        SBValue.GetValueAsUnsigned, u8Type, SBType.resolveTypedefs,
        SBType.GetByteSize, Nat.mul_one]

/-! ### Claim C1 -/

/-- Claim C1: after every successful hash-table `update()` (map or set
variant), `valid_indices` is strictly increasing and contains exactly the
physical slots `i < capacity` whose control byte has its high bit clear
(`byte &&& 0x80 = 0`); every other slot, and every index `≥ capacity`, is
excluded. -/
theorem hashmap_valid_slots (mem : Int → Nat) (tableOf : SBValue → SBValue)
    (sv : Bool) (valobj : SBValue) (st : StdHashMapSyntheticProvider)
    (h : StdHashMapSyntheticProvider.updateWith mem tableOf sv valobj = some st) :
    List.Pairwise (· < ·) st.valid_indices ∧
    ∀ i : Nat, i ∈ st.valid_indices ↔
      i < st.capacity ∧
        ctrlByte mem (st.ctrl.GetValueAsUnsigned mem) i &&& 128 = 0 := by
  obtain ⟨ta, -, -, -, -, -, -, -, -, -, -, hvi⟩ :=
    updateWith_inv mem tableOf sv valobj st h
  constructor
  · rw [hvi]
    exact (List.pairwise_lt_range st.capacity).filter _
  · intro i
    rw [hvi, List.mem_filter, List.mem_range]
    simp only [beq_iff_eq]

/-- Claim C1, witness: on the demo map (capacity 8, control bytes
`[0, 0x80, 0, 0x80, 0x80, 0x80, 0, 0x80]` at `0x2000`) the scanned list is
sorted and slot 6 is a member exactly because its byte has the high bit
clear. -/
theorem hashmap_valid_slots_witness :
    List.Pairwise (· < ·) demoMapState.valid_indices ∧
    (6 ∈ demoMapState.valid_indices ↔
      6 < demoMapState.capacity ∧
        ctrlByte demoMem (demoMapState.ctrl.GetValueAsUnsigned demoMem) 6 &&& 128
          = 0) := by
  have h := hashmap_valid_slots demoMem StdHashMapSyntheticProvider.table true
    demoMapValobj demoMapState (by rfl)
  exact ⟨h.1, h.2 6⟩

/-! ### Claim C10 -/

/-- Claim C10: after every successful hash-table `update()`, the computed
capacity is exactly `bucket_mask + 1` in exact (arbitrary-precision `Nat`)
arithmetic, hence is at least 1 and never zero, so the control-byte scan's
slot list `range capacity` is never empty. -/
theorem hashmap_capacity_positive (mem : Int → Nat) (tableOf : SBValue → SBValue)
    (sv : Bool) (valobj : SBValue) (st : StdHashMapSyntheticProvider)
    (h : StdHashMapSyntheticProvider.updateWith mem tableOf sv valobj = some st) :
    st.capacity = ((((tableOf valobj).GetChildMemberWithName
        "table").GetChildMemberWithName "bucket_mask").GetValueAsUnsigned mem) + 1 ∧
    1 ≤ st.capacity ∧ List.range st.capacity ≠ [] := by
  obtain ⟨ta, -, -, -, hcap, -⟩ := updateWith_inv mem tableOf sv valobj st h
  refine ⟨hcap, by omega, ?_⟩
  have hpos : 0 < st.capacity := by omega
  simp [List.range_eq_nil]
  omega

/-- Claim C10, witness: on the demo map, `bucket_mask = 7` gives capacity
`7 + 1` and a nonempty scan range. -/
theorem hashmap_capacity_positive_witness :
    demoMapState.capacity = 7 + 1 ∧ 1 ≤ demoMapState.capacity ∧
      List.range demoMapState.capacity ≠ [] := by
  have h := hashmap_capacity_positive demoMem StdHashMapSyntheticProvider.table
    true demoMapValobj demoMapState (by rfl)
  exact ⟨h.1, h.2.1, h.2.2⟩

/-! ### Claim C4 -/

/-- Claim C4, counterexample: the demo table's header says `items = 2` but
the scan finds only one occupied slot; `update()` nevertheless succeeds
(returns a state, surfacing no error), and `num_children` reports 2.  The
mismatch between `items` and `len(valid_indices)` is never checked. -/
theorem hashmap_mismatch_not_error_cex :
    StdHashMapSyntheticProvider.update demoMem demoMismatchValobj =
      some demoMismatchState ∧
    demoMismatchState.size = 2 ∧
    demoMismatchState.valid_indices.length = 1 ∧
    StdHashMapSyntheticProvider.num_children demoMismatchState = 2 :=
  ⟨rfl, rfl, rfl, rfl⟩

/-- Claim C4, amended: `childCount()` is the `items` value read from the
table header, but `update()` performs no consistency check between `items`
and the scanned `valid_indices` length — a mismatch is not surfaced as an
error at update time (see the counterexample, where `update()` succeeds
with `items = 2` and one scanned slot). -/
theorem hashmap_childcount_is_items (mem : Int → Nat)
    (tableOf : SBValue → SBValue) (sv : Bool) (valobj : SBValue)
    (st : StdHashMapSyntheticProvider)
    (h : StdHashMapSyntheticProvider.updateWith mem tableOf sv valobj = some st) :
    StdHashMapSyntheticProvider.num_children st =
      (((tableOf valobj).GetChildMemberWithName
        "table").GetChildMemberWithName "items").GetValueAsUnsigned mem := by
  obtain ⟨ta, -, -, -, -, -, hsize, -⟩ := updateWith_inv mem tableOf sv valobj st h
  exact hsize

/-- Claim C4, witness: on the mismatching demo table the reported child
count is the header's `items` value 2, not the scanned count 1. -/
theorem hashmap_childcount_is_items_witness :
    StdHashMapSyntheticProvider.num_children demoMismatchState = 2 :=
  hashmap_childcount_is_items demoMem StdHashMapSyntheticProvider.table true
    demoMismatchValobj demoMismatchState (by rfl)

/-! ### Claim C2 -/

/-- Claim C2: for every in-range logical index, the map variant's
`get_child_at_index` returns the pair value at address
`element_base - (valid_slots[k] + 1) * pair_size` under the NEW layout and
`element_base + valid_slots[k] * pair_size` under the OLD layout, in exact
integer arithmetic (`element_base` is the `data_ptr` value). -/
theorem hashmap_child_address (mem : Int → Nat)
    (p : StdHashMapSyntheticProvider) (index slot : Nat)
    (hsv : p.show_values = true)
    (hget : p.valid_indices.get? index = some slot) :
    StdHashMapSyntheticProvider.get_child_at_index mem p index =
      some (SBValue.fromAddress (childName index)
        (if p.new_layout
          then (p.data_ptr.GetValueAsUnsigned mem : Int) -
            ((slot : Int) + 1) * (p.pair_type_size : Int)
          else (p.data_ptr.GetValueAsUnsigned mem : Int) +
            (slot : Int) * (p.pair_type_size : Int))
        p.pair_type) := by
  unfold StdHashMapSyntheticProvider.get_child_at_index
  rw [hget]
  cases hnl : p.new_layout with
  | true =>
      simp [hsv, hnl, SBValue.CreateValueFromAddress]
      ring
  | false =>
      simp [hsv, hnl, SBValue.CreateValueFromAddress]

/-- Claim C2, witness: on the NEW-layout demo map, child 2 (slot 6) sits at
`0x2000 - (6 + 1) * 16`; on the OLD-layout demo map, child 1 (slot 2) sits
at `0x8000 + 2 * 16`.  Both exercise the claimed formulas, slot 6 being the
last occupied slot before `capacity - 1`. -/
theorem hashmap_child_address_witness :
    StdHashMapSyntheticProvider.get_child_at_index demoMem demoMapState 2 =
      some (SBValue.fromAddress (childName 2) (0x2000 - (6 + 1) * 16)
        demoPairTy) ∧
    StdHashMapSyntheticProvider.get_child_at_index demoMem demoOldMapState 1 =
      some (SBValue.fromAddress (childName 1) (0x8000 + 2 * 16)
        demoPairTy) := by
  exact ⟨hashmap_child_address demoMem demoMapState 2 6 (by rfl) (by rfl),
    hashmap_child_address demoMem demoOldMapState 1 2 (by rfl) (by rfl)⟩

/-! ### Claim C3 -/

/-- Claim C3, counterexample: the slice and vec decoders perform no range
check at all.  The demo slice and vec both have `num_children = 3`, yet
`get_child_at_index` at the out-of-range index 3 reports no error and
returns a value whose address `0x1000 + 3 * 4 = 0x100C` was computed from
the out-of-range index — contradicting the claim that an index outside
`[0, childCount())` yields an explicit range error and no address
computation. -/
theorem childAt_no_range_check_cex :
    StdSliceSyntheticProvider.num_children demoSliceState = 3 ∧
    StdSliceSyntheticProvider.get_child_at_index demoMem demoSliceState 3 =
      SBValue.fromAddress (childName 3) 0x100C u32Type ∧
    StdVecSyntheticProvider.num_children demoVecState = 3 ∧
    StdVecSyntheticProvider.get_child_at_index demoMem demoVecState 3 =
      SBValue.fromAddress (childName 3) 0x100C u32Type :=
  ⟨rfl, rfl, rfl, rfl⟩

/-- Claim C3, amended: only the hash-table decoder rejects out-of-range
indices — its `get_child_at_index` fails (the `IndexError` of
`valid_indices[index]`) exactly when `index ≥ len(valid_indices)`.  The
slice and vec decoders perform no range check: for every index, in range
or not, they compute `data_start + index * element_size` and return a
value at that address. -/
theorem childAt_range_behavior (mem : Int → Nat)
    (ps : StdSliceSyntheticProvider) (pv : StdVecSyntheticProvider)
    (ph : StdHashMapSyntheticProvider) (index : Nat) :
    StdSliceSyntheticProvider.get_child_at_index mem ps index =
      SBValue.fromAddress (childName index)
        ((ps.data_ptr.GetValueAsUnsigned mem : Int) +
          (index : Int) * (ps.element_type_size : Int)) ps.element_type ∧
    StdVecSyntheticProvider.get_child_at_index mem pv index =
      SBValue.fromAddress (childName index)
        ((pv.data_ptr.GetValueAsUnsigned mem : Int) +
          (index : Int) * (pv.element_type_size : Int)) pv.element_type ∧
    ((StdHashMapSyntheticProvider.get_child_at_index mem ph index).isSome ↔
      index < ph.valid_indices.length) := by
  refine ⟨rfl, rfl, ?_⟩
  unfold StdHashMapSyntheticProvider.get_child_at_index
  cases hget : ph.valid_indices.get? index with
  | none =>
      rw [List.get?_eq_none] at hget
      simp only [Option.isSome_none]
      constructor
      · intro hcontra
        simp at hcontra
      · intro hlt
        omega
  | some slot =>
      have hlt : index < ph.valid_indices.length := by
        by_contra hge
        have h2 : ph.valid_indices.get? index = none :=
          List.get?_eq_none.mpr (by omega)
        rw [h2] at hget
        exact absurd hget (by simp)
      simp only
      by_cases hsv : ph.show_values
      · simp [hsv, hlt]
      · simp [hsv, hlt]

/-! ### Claim C7 -/

/-- Claim C7: `unwrap_unique_or_non_null` resolves all three historical
buffer-pointer shapes — raw pointer member, `NonNull` wrapper, and the
`NonZero` non-zero-integer wrapper — to the identical final data address
`A` for the same underlying allocation. -/
theorem unwrap_layouts_agree (mem : Int → Nat) (A : Nat) (T : SBType) :
    (unwrap_unique_or_non_null (uniqueRawPtr A T)).GetValueAsUnsigned mem = A ∧
    (unwrap_unique_or_non_null (uniqueNonNull A T)).GetValueAsUnsigned mem = A ∧
    (unwrap_unique_or_non_null (uniqueNonZero A T)).GetValueAsUnsigned mem = A :=
  ⟨rfl, rfl, rfl⟩

/-! ### Claim C8 -/

/-- Claim C8: when the pair type's first field is the key, the set
specialization (`show_values = false`) does not return the raw pair at the
element address — it returns a value carrying the key field's data region
and the key field's type, the (placeholder) value half discarded — while
the map variant (`show_values = true`) returns the raw pair itself. -/
theorem hashset_child_projects_key (mem : Int → Nat)
    (p : StdHashMapSyntheticProvider) (index slot : Nat)
    (nm : String) (sz : Nat) (ta : List SBType) (f0n : String) (f0off : Nat)
    (f0ty : SBType) (rest : List (String × Nat × SBType))
    (hget : p.valid_indices.get? index = some slot)
    (hty : p.pair_type = .structT nm sz ta ((f0n, f0off, f0ty) :: rest)) :
    (p.show_values = false →
      StdHashMapSyntheticProvider.get_child_at_index mem p index =
        some (SBValue.fromData (childName index)
          ((if p.new_layout
            then (p.data_ptr.GetValueAsUnsigned mem : Int) -
              ((slot : Int) + 1) * (p.pair_type_size : Int)
            else (p.data_ptr.GetValueAsUnsigned mem : Int) +
              (slot : Int) * (p.pair_type_size : Int)) + (f0off : Int))
          f0ty.GetByteSize f0ty) ∧
      StdHashMapSyntheticProvider.get_child_at_index mem p index ≠
        some (SBValue.fromAddress (childName index)
          (if p.new_layout
            then (p.data_ptr.GetValueAsUnsigned mem : Int) -
              ((slot : Int) + 1) * (p.pair_type_size : Int)
            else (p.data_ptr.GetValueAsUnsigned mem : Int) +
              (slot : Int) * (p.pair_type_size : Int))
          p.pair_type)) ∧
    (p.show_values = true →
      StdHashMapSyntheticProvider.get_child_at_index mem p index =
        some (SBValue.fromAddress (childName index)
          (if p.new_layout
            then (p.data_ptr.GetValueAsUnsigned mem : Int) -
              ((slot : Int) + 1) * (p.pair_type_size : Int)
            else (p.data_ptr.GetValueAsUnsigned mem : Int) +
              (slot : Int) * (p.pair_type_size : Int))
          p.pair_type)) := by
  constructor
  · intro hsv
    constructor
    · unfold StdHashMapSyntheticProvider.get_child_at_index
      rw [hget]
      cases hnl : p.new_layout with
      | true =>
          simp [hsv, hnl, hty, SBValue.CreateValueFromAddress,
            SBValue.GetChildAtIndex, SBType.fieldList,
            SBValue.CreateValueFromData, SBValue.GetData, SBValue.GetType]
          ring
      | false =>
          simp [hsv, hnl, hty, SBValue.CreateValueFromAddress,
            SBValue.GetChildAtIndex, SBType.fieldList,
            SBValue.CreateValueFromData, SBValue.GetData, SBValue.GetType]
    · unfold StdHashMapSyntheticProvider.get_child_at_index
      rw [hget]
      simp only [hsv]
      intro hcontra
      simp only [SBValue.CreateValueFromData, SBValue.CreateValueFromAddress,
        Bool.false_eq_true, if_false] at hcontra
      injection hcontra with hcontra
      exact SBValue.noConfusion hcontra
  · intro hsv
    unfold StdHashMapSyntheticProvider.get_child_at_index
    rw [hget]
    cases hnl : p.new_layout with
    | true =>
        simp [hsv, hnl, SBValue.CreateValueFromAddress]
        ring
    | false =>
        simp [hsv, hnl, SBValue.CreateValueFromAddress]

/-- Claim C8, witness: on the demo set (NEW layout, pair size 8), child 1
is slot 2; the raw pair sits at `0x2000 - 3 * 8` and the returned value is
the key projection — the 8-byte first field at that address with the key
type — and differs from the raw pair value. -/
theorem hashset_child_projects_key_witness :
    StdHashMapSyntheticProvider.get_child_at_index demoMem demoSetState 1 =
      some (SBValue.fromData (childName 1)
        ((if demoSetState.new_layout
          then (demoSetState.data_ptr.GetValueAsUnsigned demoMem : Int) -
            ((2 : Int) + 1) * (demoSetState.pair_type_size : Int)
          else (demoSetState.data_ptr.GetValueAsUnsigned demoMem : Int) +
            (2 : Int) * (demoSetState.pair_type_size : Int)) + ((0 : Nat) : Int))
        u64Type.GetByteSize u64Type) ∧
    StdHashMapSyntheticProvider.get_child_at_index demoMem demoSetState 1 ≠
      some (SBValue.fromAddress (childName 1)
        (if demoSetState.new_layout
          then (demoSetState.data_ptr.GetValueAsUnsigned demoMem : Int) -
            ((2 : Int) + 1) * (demoSetState.pair_type_size : Int)
          else (demoSetState.data_ptr.GetValueAsUnsigned demoMem : Int) +
            (2 : Int) * (demoSetState.pair_type_size : Int))
        demoSetState.pair_type) :=
  (hashset_child_projects_key demoMem demoSetState 1 2
    "(unsigned long, ())" 8 [] "0" 0 u64Type [("1", 8, .basic "()" 0)]
    (by rfl) (by rfl)).1 (by rfl)

/-! ### Claim C9 -/

/-- Claim C9, counterexample: the demo table lacking a `bucket_mask` member
still updates successfully (the invalid member reads as 0, so capacity is
computed as 1), and `num_children` afterwards reports the `items` value 5,
not 0 — contradicting the claim that `update()` fails and `childCount()`
reports 0. -/
theorem missing_bucket_mask_no_failure_cex :
    StdHashMapSyntheticProvider.update demoMem demoNoMaskValobj =
      some demoNoMaskState ∧
    StdHashMapSyntheticProvider.num_children demoNoMaskState = 5 ∧
    StdHashMapSyntheticProvider.num_children demoNoMaskState ≠ 0 :=
  ⟨rfl, rfl, by decide⟩

/-- Claim C9, amended: a missing `bucket_mask` member does not make
`update()` fail and does not make `childCount()` report 0.  The invalid
member's unsigned read is lldb's fail value 0, so `update()` completes with
capacity `0 + 1 = 1` and `childCount()` reports whatever the `items` field
holds.  (No exception escapes — the only part of the original claim that
holds.) -/
theorem missing_bucket_mask_behavior (mem : Int → Nat) (n c : Nat) :
    ∃ st, StdHashMapSyntheticProvider.update mem (noMaskValobj n c) = some st ∧
      st.capacity = 1 ∧ st.size = n ∧
      StdHashMapSyntheticProvider.num_children st = n := by
  exact ⟨_, rfl, rfl, rfl, rfl⟩
